import Mathlib

/-!
Shallow embedding of three modules of the react-native-ui-lib repository:
the Tour component (typings/components/tour/index.js), the color utility
(src/style/colors.js) and the Card component (src/components/card/index.js),
together with theorems settling the specification's claims about them.
-/

namespace Tour

/-- Screen-space rectangle delivered by `measureInWindow` in
`onTargetLayout`: callback arguments `(x, y, width, height)` are stored as
`left := x`, `top := y`, `width`, `height`. -/
structure BoundingBox where
  left : ℚ
  top : ℚ
  width : ℚ
  height : ℚ
deriving DecidableEq, Repr

/-- The component's internal state: `this.state`.  The only field ever
written is `targetPosition`; `none` models the JavaScript state before the
first `setState`, where `this.state.targetPosition` is `undefined`. -/
structure TourState where
  targetPosition : Option BoundingBox
deriving DecidableEq, Repr

/-- The constructor sets `this.state = { }`, so `targetPosition` is absent. -/
def initialState : TourState := { targetPosition := none }

/-- Lodash `_.isUndefined` applied to the stored `targetPosition`. -/
def isUndefined (o : Option BoundingBox) : Bool := o.isNone

/-- The `measureInWindow` callback in `onTargetLayout`: the measured box
replaces the stored `targetPosition` wholesale via `setState`. -/
def onTargetLayout (s : TourState) (b : BoundingBox) : TourState :=
  { s with targetPosition := some b }

/-- Spec state machine phases: `Unmeasured` and `Measured`. -/
inductive TourPhase where
  | unmeasured
  | measured
deriving DecidableEq, Repr

/-- The phase of a state: `measured` exactly when a box has been stored. -/
def TourState.phase (s : TourState) : TourPhase :=
  if s.targetPosition.isSome then .measured else .unmeasured

/-- The `glowWrapper` entry of the component's `StyleSheet`: absolute
position offsets `top/left/right/bottom: -4` and `borderRadius: 999`,
relative to the enclosing absolutely-positioned container view. -/
structure GlowWrapperStyle where
  top : ℚ
  left : ℚ
  right : ℚ
  bottom : ℚ
  borderRadius : ℚ
deriving DecidableEq, Repr

/-- The literal style values of `styles.glowWrapper` in the source. -/
def glowWrapper : GlowWrapperStyle :=
  { top := -4, left := -4, right := -4, bottom := -4, borderRadius := 999 }

/-- The `bottom` style value of the message panel produced by
`renderMessage`: the source sets `bottom: targetPosition.height`. -/
def renderMessage (tp : BoundingBox) : ℚ := tp.height

/-- Geometry of the overlay content rendered inside the modal when
`shouldShowTour` holds: the container view is absolutely positioned at
`targetPosition.top` / `targetPosition.left`.  The glow wrapper carries
`styles.glowWrapper`, the target clone sits at the container's origin, and
the message panel's bottom offset comes from `renderMessage`. -/
structure OverlayContent where
  containerTop : ℚ
  containerLeft : ℚ
  glow : GlowWrapperStyle
  cloneTop : ℚ
  cloneLeft : ℚ
  messageBottom : ℚ
deriving DecidableEq, Repr

/-- Rendered (absolute) left coordinate of the glow wrapper: container
left plus the style's relative `left` offset. -/
def OverlayContent.glowRenderedLeft (o : OverlayContent) : ℚ :=
  o.containerLeft + o.glow.left

/-- Rendered (absolute) top coordinate of the glow wrapper: container top
plus the style's relative `top` offset. -/
def OverlayContent.glowRenderedTop (o : OverlayContent) : ℚ :=
  o.containerTop + o.glow.top

/-- Result of `Tour.render`: the modal's `visible` prop is
`shouldShowTour`, and the overlay content (the conditional block guarded
by `shouldShowTour` in the JSX) is present exactly when that guard holds. -/
structure RenderOutput where
  modalVisible : Bool
  overlay : Option OverlayContent
deriving DecidableEq, Repr

/-- The component's `render` method:
`shouldShowTour = visible && !_.isUndefined(targetPosition)`; the modal
receives `visible={shouldShowTour}` and the spotlight block renders only
when `shouldShowTour` holds, reading geometry from `targetPosition`. -/
def render (visible : Bool) (s : TourState) : RenderOutput :=
  let shouldShowTour := visible && !(isUndefined s.targetPosition)
  { modalVisible := shouldShowTour
    overlay :=
      match shouldShowTour, s.targetPosition with
      | true, some tp =>
          some { containerTop := tp.top
                 containerLeft := tp.left
                 glow := glowWrapper
                 cloneTop := tp.top
                 cloneLeft := tp.left
                 messageBottom := renderMessage tp }
      | _, _ => none }

/-- The error taxonomy of the spec: `InvalidChildCount` is raised by the
child-count check (`React.Children.only`) when the `children` prop does
not hold exactly one element. -/
inductive TourError where
  | invalidChildCount
deriving DecidableEq, Repr

/-- `React.Children.only(children)`: returns the single child, or throws
when zero or several children are supplied. -/
def childrenOnly {α : Type} (children : List α) : Except TourError α :=
  match children with
  | [c] => Except.ok c
  | _ => Except.error TourError.invalidChildCount

/-- `renderTarget` (the spec's `attachToTarget`): extracts the unique
child via `React.Children.only` and clones it with the layout hook and
ref attached; the clone keeps the child's identity, so the decoration is
modelled as the identity on the child value. -/
def renderTarget {α : Type} (children : List α) : Except TourError α :=
  childrenOnly children

/-- `renderTargetClone`: also extracts the unique child via
`React.Children.only` and clones it unchanged. -/
def renderTargetClone {α : Type} (children : List α) : Except TourError α :=
  childrenOnly children

/-- External inputs that can reach the mounted component over time: a
completed layout measurement, or the caller changing the `visible` prop. -/
inductive TourEvent where
  | measure (b : BoundingBox)
  | setVisible (v : Bool)

/-- A mounted component: the current `visible` prop plus internal state. -/
structure TourComponent where
  visible : Bool
  state : TourState
deriving DecidableEq, Repr

/-- One event: a measurement runs `onTargetLayout`; a prop change only
replaces `visible` and leaves the internal state untouched. -/
def step (c : TourComponent) : TourEvent → TourComponent
  | .measure b => { c with state := onTargetLayout c.state b }
  | .setVisible v => { c with visible := v }

/-- A sequence of events applied in order to a mounted component. -/
def runEvents (c : TourComponent) (es : List TourEvent) : TourComponent :=
  es.foldl step c

end Tour

namespace Colors

/-- A JavaScript number as passed for `opacity`: either `NaN` or an
actual (rational) value.  `measureInWindow` and the opacity prop never
produce infinities in the claims' scope, so only `NaN` is modelled as a
non-value. -/
inductive JsNumber where
  | nan
  | val (q : ℚ)
deriving DecidableEq, Repr

/-- The global `isNaN` applied to a number. -/
def JsNumber.isNaN : JsNumber → Bool
  | .nan => true
  | .val _ => false

/-- JavaScript `opacity > 1`: any comparison with `NaN` is false. -/
def JsNumber.gtOne : JsNumber → Bool
  | .nan => false
  | .val q => 1 < q

/-- JavaScript `opacity < 0`: any comparison with `NaN` is false. -/
def JsNumber.ltZero : JsNumber → Bool
  | .nan => false
  | .val q => q < 0

/-- Numeric value of a `JsNumber`; the `NaN` branch is never reached by
`alpha`, whose guard returns early on `NaN`. -/
def JsNumber.toRat : JsNumber → ℚ
  | .nan => 0
  | .val q => q

/-- `BaseConvert.decToHex` from the external all-your-base dependency:
standard decimal-to-hexadecimal conversion with lowercase digits, as
produced by `Number.prototype.toString(16)`. -/
def decToHex (n : Nat) : String := String.mk (Nat.toDigits 16 n)

/-- JavaScript ``String(`00` + alpha).slice(-2)``: the last two characters
of the zero-padded hex string. -/
def sliceLastTwo (s : String) : String :=
  String.mk (s.data.drop (s.data.length - 2))

/-- `Colors.alpha(color, opacity)` from src/style/colors.js: returns
`color` unchanged when `opacity` is `NaN`, above 1 or below 0; otherwise
appends the two-character lowercase hex form of `Math.round(opacity*255)`.
JavaScript `Math.round` rounds half toward positive infinity, which is
Mathlib's `round`. -/
def alpha (color : String) (opacity : JsNumber) : String :=
  if opacity.isNaN || opacity.gtOne || opacity.ltZero then
    color
  else
    let a : Int := round (opacity.toRat * 255)
    let hex := decToHex a.toNat
    color ++ sliceLastTwo ("00" ++ hex)

/-- `Colors.alpha(color)` with the declared default `opacity = 1`. -/
def alphaDefault (color : String) : String := alpha color (JsNumber.val 1)

/-- Whether a character is a hexadecimal digit. -/
def isHexDigitChar (c : Char) : Bool :=
  (decide ('0' ≤ c) && decide (c ≤ '9')) ||
  (decide ('a' ≤ c) && decide (c ≤ 'f')) ||
  (decide ('A' ≤ c) && decide (c ≤ 'F'))

/-- Numeric value of one hexadecimal digit character. -/
def hexDigitValue (c : Char) : Nat :=
  if decide ('0' ≤ c) && decide (c ≤ '9') then c.toNat - '0'.toNat
  else if decide ('a' ≤ c) && decide (c ≤ 'f') then c.toNat - 'a'.toNat + 10
  else if decide ('A' ≤ c) && decide (c ≤ 'F') then c.toNat - 'A'.toNat + 10
  else 0

/-- Numeric value of a hexadecimal string, most significant digit first. -/
def hexValue (s : String) : Nat :=
  s.data.foldl (fun acc c => 16 * acc + hexDigitValue c) 0

end Colors

namespace Card

/-- Edge markers pushed by `calcImagePosition` for a Card.Image child. -/
inductive ImagePosition where
  | left
  | top
  | right
  | bottom
deriving DecidableEq, Repr

/-- `Card.calcImagePosition(childIndex)` from src/components/card/index.js:
with `childrenCount = React.Children.count(children)`, pushes
`row ? 'left' : 'top'` when `childIndex === 0` and
`row ? 'right' : 'bottom'` when `childIndex === childrenCount - 1`.
The JavaScript index comparison is over signed numbers, so the second
guard compares integers (`childrenCount - 1` is `-1` for zero children). -/
def calcImagePosition (row : Bool) (childrenCount : Nat) (childIndex : Nat) :
    List ImagePosition :=
  let position : List ImagePosition := []
  let position :=
    if childIndex = 0 then
      position ++ [if row then ImagePosition.left else ImagePosition.top]
    else position
  let position :=
    if (childIndex : Int) = (childrenCount : Int) - 1 then
      position ++ [if row then ImagePosition.right else ImagePosition.bottom]
    else position
  position

end Card

section Theorems

-- Helper: every byte below 256 yields, after hex conversion and
-- two-character padding, a string of exactly two hexadecimal characters
-- whose numeric value is the original byte.
set_option maxRecDepth 10000 in
theorem hexPadSliceSpec : ∀ n : Nat, n < 256 →
    (Colors.sliceLastTwo ("00" ++ Colors.decToHex n)).length = 2 ∧
    (∀ ch ∈ (Colors.sliceLastTwo ("00" ++ Colors.decToHex n)).data,
      Colors.isHexDigitChar ch = true) ∧
    Colors.hexValue (Colors.sliceLastTwo ("00" ++ Colors.decToHex n)) = n := by
  decide

/-- Helper: inside the valid range the guard of `alpha` is false and the
function appends the padded hex form of `round (q * 255)`. -/
theorem alpha_in_range_eq (c : String) (q : ℚ) (h0 : 0 ≤ q) (h1 : q ≤ 1) :
    Colors.alpha c (Colors.JsNumber.val q) =
      c ++ Colors.sliceLastTwo ("00" ++ Colors.decToHex (round (q * 255)).toNat) := by
  have hq1 : ¬ (1:ℚ) < q := not_lt.mpr h1
  have hq0 : ¬ q < 0 := not_lt.mpr h0
  simp [Colors.alpha, Colors.JsNumber.isNaN, Colors.JsNumber.gtOne, Colors.JsNumber.ltZero,
    Colors.JsNumber.toRat, hq1, hq0]

/-- Helper: for an opacity in the unit interval, the rounded scaled value
is a byte. -/
theorem round_byte_bounds (q : ℚ) (h0 : 0 ≤ q) (h1 : q ≤ 1) :
    0 ≤ round (q * 255) ∧ round (q * 255) ≤ 255 := by
  rw [round_eq]
  constructor
  · exact Int.le_floor.mpr (by push_cast; linarith)
  · have h : (⌊q * 255 + 1 / 2⌋ : ℤ) < 256 := Int.floor_lt.mpr (by push_cast; linarith)
    omega

/-- C1: the overlay content renders if and only if the `visible` prop is
true and a bounding box has been stored by a prior measurement; with no
prior measurement the overlay never renders, even when `visible` is true. -/
theorem C1_overlay_iff_visible_and_measured (visible : Bool) (s : Tour.TourState) :
    (Tour.render visible s).overlay.isSome = true ↔
      visible = true ∧ s.targetPosition.isSome = true := by
  cases visible <;> rcases s with ⟨_ | b⟩ <;>
    simp [Tour.render, Tour.isUndefined]

/-- C2: measuring the box (left 10, top 20, width 100, height 50) moves
the state to `Measured`, and the glow wrapper then renders at left 6 and
top 16, the stored box inflated by the fixed 4-unit margin. -/
theorem C2_glow_position_after_measure :
    (Tour.onTargetLayout Tour.initialState ⟨10, 20, 100, 50⟩).phase = Tour.TourPhase.measured ∧
    ((Tour.render true (Tour.onTargetLayout Tour.initialState ⟨10, 20, 100, 50⟩)).overlay.map
        (fun o => (o.glowRenderedLeft, o.glowRenderedTop))) = some (6, 16) := by
  constructor
  · rfl
  · simp [Tour.render, Tour.onTargetLayout, Tour.initialState, Tour.isUndefined,
      Tour.OverlayContent.glowRenderedLeft, Tour.OverlayContent.glowRenderedTop,
      Tour.glowWrapper, Tour.renderMessage]
    norm_num

/-- C3: the message panel's bottom offset is exactly the stored box's
height, it is unchanged between any two boxes of equal height (so it does
not depend on top, left or width), and the rendered overlay carries that
offset. -/
theorem C3_message_offset_is_height :
    (∀ b : Tour.BoundingBox, Tour.renderMessage b = b.height) ∧
    (∀ b1 b2 : Tour.BoundingBox, b1.height = b2.height →
      Tour.renderMessage b1 = Tour.renderMessage b2) ∧
    (∀ b : Tour.BoundingBox,
      ((Tour.render true { targetPosition := some b }).overlay.map
        Tour.OverlayContent.messageBottom) = some b.height) := by
  refine ⟨fun b => rfl, fun b1 b2 h => ?_, fun b => rfl⟩
  simp [Tour.renderMessage, h]

/-- Witness for C3 at height 50 and at two boxes sharing that height. -/
theorem C3_message_offset_is_height_witness :
    Tour.renderMessage ⟨10, 20, 100, 50⟩ = 50 ∧
    Tour.renderMessage ⟨10, 20, 100, 50⟩ = Tour.renderMessage ⟨0, 0, 0, 50⟩ :=
  ⟨C3_message_offset_is_height.1 ⟨10, 20, 100, 50⟩,
   C3_message_offset_is_height.2.1 ⟨10, 20, 100, 50⟩ ⟨0, 0, 0, 50⟩ rfl⟩

/-- C4: storing the same box twice renders exactly as storing it once. -/
theorem C4_onLayout_idempotent (visible : Bool) (s : Tour.TourState) (b : Tour.BoundingBox) :
    Tour.render visible (Tour.onTargetLayout (Tour.onTargetLayout s b) b) =
      Tour.render visible (Tour.onTargetLayout s b) := rfl

/-- C5: after a measurement, toggling `visible` true→false→true leaves
the stored box intact, renders the overlay again with no further
measurement, and overlay presence afterwards equals the current
`visible` value. -/
theorem C5_visibility_toggle_preserves_measurement (c : Tour.TourComponent)
    (h : c.state.targetPosition.isSome = true) :
    (Tour.runEvents c [Tour.TourEvent.setVisible false, Tour.TourEvent.setVisible true]).state
      = c.state ∧
    ((Tour.render
        (Tour.runEvents c [Tour.TourEvent.setVisible false, Tour.TourEvent.setVisible true]).visible
        (Tour.runEvents c [Tour.TourEvent.setVisible false,
          Tour.TourEvent.setVisible true]).state).overlay.isSome = true) ∧
    (∀ v : Bool,
      ((Tour.render v
        (Tour.runEvents c [Tour.TourEvent.setVisible false,
          Tour.TourEvent.setVisible true]).state).overlay.isSome) = v) := by
  obtain ⟨vis, ⟨tp⟩⟩ := c
  cases tp with
  | none => simp at h
  | some b =>
    refine ⟨rfl, rfl, ?_⟩
    intro v; cases v <;> rfl

/-- Witness for C5 on a concrete measured component. -/
theorem C5_visibility_toggle_preserves_measurement_witness :
    (Tour.runEvents ⟨true, { targetPosition := some ⟨1, 2, 3, 4⟩ }⟩
        [Tour.TourEvent.setVisible false, Tour.TourEvent.setVisible true]).state
      = ({ targetPosition := some ⟨1, 2, 3, 4⟩ } : Tour.TourState) ∧
    ((Tour.render
        (Tour.runEvents (⟨true, { targetPosition := some ⟨1, 2, 3, 4⟩ }⟩ : Tour.TourComponent)
          [Tour.TourEvent.setVisible false, Tour.TourEvent.setVisible true]).visible
        (Tour.runEvents (⟨true, { targetPosition := some ⟨1, 2, 3, 4⟩ }⟩ : Tour.TourComponent)
          [Tour.TourEvent.setVisible false,
            Tour.TourEvent.setVisible true]).state).overlay.isSome = true) ∧
    (∀ v : Bool,
      ((Tour.render v
        (Tour.runEvents (⟨true, { targetPosition := some ⟨1, 2, 3, 4⟩ }⟩ : Tour.TourComponent)
          [Tour.TourEvent.setVisible false,
            Tour.TourEvent.setVisible true]).state).overlay.isSome) = v) :=
  C5_visibility_toggle_preserves_measurement
    ⟨true, { targetPosition := some ⟨1, 2, 3, 4⟩ }⟩ rfl

/-- C6: extracting the spotlighted child succeeds exactly on one child;
zero or several children yield the `InvalidChildCount` error. -/
theorem C6_child_count {α : Type} (children : List α) :
    (children.length = 1 → ∃ c, Tour.renderTarget children = Except.ok c) ∧
    (children.length ≠ 1 →
      Tour.renderTarget children = Except.error Tour.TourError.invalidChildCount) := by
  match children with
  | [] => exact ⟨fun h => by simp at h, fun _ => rfl⟩
  | [c] => exact ⟨fun _ => ⟨c, rfl⟩, fun h => absurd rfl h⟩
  | a :: b :: rest => exact ⟨fun h => by simp at h, fun _ => rfl⟩

/-- Witness for C6: one child succeeds; two children and zero children
fail with `InvalidChildCount`. -/
theorem C6_child_count_witness :
    (∃ c, Tour.renderTarget ([5] : List Nat) = Except.ok c) ∧
    Tour.renderTarget ([1, 2] : List Nat) = Except.error Tour.TourError.invalidChildCount ∧
    Tour.renderTarget ([] : List Nat) = Except.error Tour.TourError.invalidChildCount :=
  ⟨(C6_child_count [5]).1 rfl,
   (C6_child_count [1, 2]).2 (by decide),
   (C6_child_count ([] : List Nat)).2 (by decide)⟩

/-- C7: an opacity that is NaN, above 1 or below 0 makes `alpha` return
the color unchanged; the function is total, so no error is raised. -/
theorem C7_alpha_out_of_range (c : String) (o : Colors.JsNumber)
    (h : o = Colors.JsNumber.nan ∨
      ∃ q : ℚ, o = Colors.JsNumber.val q ∧ (1 < q ∨ q < 0)) :
    Colors.alpha c o = c := by
  rcases h with h | ⟨q, rfl, hq⟩
  · subst h; rfl
  · rcases hq with hq | hq <;>
      simp [Colors.alpha, Colors.JsNumber.isNaN, Colors.JsNumber.gtOne,
        Colors.JsNumber.ltZero, hq]

/-- Witness for C7 at opacity 2, NaN and -1. -/
theorem C7_alpha_out_of_range_witness :
    Colors.alpha "#ffffff" (Colors.JsNumber.val 2) = "#ffffff" ∧
    Colors.alpha "#ffffff" Colors.JsNumber.nan = "#ffffff" ∧
    Colors.alpha "#ffffff" (Colors.JsNumber.val (-1)) = "#ffffff" :=
  ⟨C7_alpha_out_of_range _ _ (Or.inr ⟨2, rfl, Or.inl (by norm_num)⟩),
   C7_alpha_out_of_range _ _ (Or.inl rfl),
   C7_alpha_out_of_range _ _ (Or.inr ⟨-1, rfl, Or.inr (by norm_num)⟩)⟩

/-- C8: before any measurement the stored box is absent (not a zeroed
box) and the overlay never renders; after measuring a zero-size box the
state is `Measured` and the overlay renders when `visible` is true. -/
theorem C8_unmeasured_vs_zero_size :
    Tour.initialState.targetPosition = none ∧
    Tour.initialState.phase = Tour.TourPhase.unmeasured ∧
    (∀ v : Bool, (Tour.render v Tour.initialState).overlay = none) ∧
    (∀ l t : ℚ,
      (Tour.onTargetLayout Tour.initialState ⟨l, t, 0, 0⟩).phase = Tour.TourPhase.measured ∧
      ((Tour.render true
        (Tour.onTargetLayout Tour.initialState ⟨l, t, 0, 0⟩)).overlay.isSome = true)) := by
  refine ⟨rfl, rfl, fun v => by cases v <;> rfl, fun l t => ⟨rfl, rfl⟩⟩

/-- C9: for an opacity in the unit interval, `alpha` appends exactly two
hexadecimal characters whose value is `round (opacity * 255)`; with the
default opacity 1 it appends `ff`. -/
theorem C9_alpha_in_range (c : String) (q : ℚ) (h0 : 0 ≤ q) (h1 : q ≤ 1) :
    (∃ suffix : String,
      Colors.alpha c (Colors.JsNumber.val q) = c ++ suffix ∧
      suffix.length = 2 ∧
      (∀ ch ∈ suffix.data, Colors.isHexDigitChar ch = true) ∧
      (Colors.hexValue suffix : Int) = round (q * 255)) ∧
    Colors.alphaDefault c = c ++ "ff" := by
  have hb := round_byte_bounds q h0 h1
  have hlt : (round (q * 255)).toNat < 256 := by omega
  obtain ⟨hlen, hhex, hval⟩ := hexPadSliceSpec (round (q * 255)).toNat hlt
  constructor
  · refine ⟨Colors.sliceLastTwo ("00" ++ Colors.decToHex (round (q * 255)).toNat),
      alpha_in_range_eq c q h0 h1, hlen, hhex, ?_⟩
    rw [hval]
    exact Int.toNat_of_nonneg hb.1
  · have h255 : round ((1:ℚ) * 255) = 255 := by norm_num
    have heq := alpha_in_range_eq c 1 (by norm_num) (by norm_num)
    rw [h255] at heq
    have hff : Colors.sliceLastTwo ("00" ++ Colors.decToHex (255 : Int).toNat) = "ff" := by
      decide
    rw [Colors.alphaDefault, heq, hff]

/-- Witness for C9 at color white and opacity one half. -/
theorem C9_alpha_in_range_witness :
    (0:ℚ) ≤ 1/2 ∧ (1:ℚ)/2 ≤ 1 ∧
    ((∃ suffix : String,
        Colors.alpha "#ffffff" (Colors.JsNumber.val (1/2)) = "#ffffff" ++ suffix ∧
        suffix.length = 2 ∧
        (∀ ch ∈ suffix.data, Colors.isHexDigitChar ch = true) ∧
        (Colors.hexValue suffix : Int) = round ((1:ℚ)/2 * 255)) ∧
      Colors.alphaDefault "#ffffff" = "#ffffff" ++ "ff") :=
  ⟨by norm_num, by norm_num,
   C9_alpha_in_range "#ffffff" (1/2) (by norm_num) (by norm_num)⟩

/-- C10: index 0 receives the left/top marker, the last index receives
the right/bottom marker (a single child receives both), and any interior
index receives the empty list. -/
theorem C10_calcImagePosition_cases (row : Bool) (n : Nat) (i : Nat) :
    (i = 0 → n = 1 →
      Card.calcImagePosition row n i =
        [(if row then Card.ImagePosition.left else Card.ImagePosition.top),
         (if row then Card.ImagePosition.right else Card.ImagePosition.bottom)]) ∧
    (i = 0 → n ≠ 1 →
      Card.calcImagePosition row n i =
        [if row then Card.ImagePosition.left else Card.ImagePosition.top]) ∧
    (1 ≤ i → (i : Int) = (n : Int) - 1 →
      Card.calcImagePosition row n i =
        [if row then Card.ImagePosition.right else Card.ImagePosition.bottom]) ∧
    (1 ≤ i → (i : Int) ≠ (n : Int) - 1 →
      Card.calcImagePosition row n i = []) := by
  refine ⟨fun h0 h1 => ?_, fun h0 h1 => ?_, fun h0 h1 => ?_, fun h0 h1 => ?_⟩ <;>
    simp only [Card.calcImagePosition] <;> split_ifs with ha hb <;> first | rfl | omega

/-- Witness for C10: one child gets both markers; the middle of three
children gets none. -/
theorem C10_calcImagePosition_cases_witness :
    Card.calcImagePosition true 1 0 = [Card.ImagePosition.left, Card.ImagePosition.right] ∧
    Card.calcImagePosition false 3 1 = [] :=
  ⟨(C10_calcImagePosition_cases true 1 0).1 rfl rfl,
   (C10_calcImagePosition_cases false 3 1).2.2.2 (by decide) (by decide)⟩

end Theorems
